import Mathlib

set_option maxRecDepth 4000

/-!
Verification development for the "Shop the Look" product-grid popup widget.

The repository contains two implementations of the same storefront widget:
* `assets/product-grid-popup.js` — a module-closure (IIFE) implementation,
  embedded below in namespace `Stl` (after its `stl` CSS/id prefix);
* an unnamed class implementation (`class ProductGridPopup`),
  embedded below in namespace `Pgp`.

The embedding models the pure data transformations of the widget: variant
resolution, option-picker construction, money formatting, and cart-items
construction, plus a small state/effect model of the add-to-cart submit
flow.  DOM display fields not read by any verified property (title,
description text, …) are omitted from the records; each definition's doc
comment points at the source lines it embeds.  JavaScript numbers holding
integer minor-unit amounts are modelled as `Nat`, with `Number.toFixed`
given its exact decimal semantics on such amounts (see `toFixed100`).
-/

/-- The object stored in a variant's `featured_image` field; both sources
read only its `src` member (`match.featured_image.src`). -/
structure VariantImage where
  src : String
deriving DecidableEq

/-- One purchasable variant of a product, as returned by
`GET /products/<handle>.js`.  `option1`..`option3` are the positional
option values (`v['option' + n]` in both sources); a missing slot is
`none` (JS `undefined`/`null`). -/
structure Variant where
  id : Nat
  price : Nat
  option1 : Option String
  option2 : Option String
  option3 : Option String
  featured_image : Option VariantImage
deriving DecidableEq

/-- Positional option access: models `v['option' + position]` for a
1-based `position`; positions other than 1..3 yield JS `undefined`,
modelled as `none`. -/
def optionAt (v : Variant) : Nat → Option String
  | 1 => v.option1
  | 2 => v.option2
  | 3 => v.option3
  | _ => none

/-- One entry of the `items` array POSTed to `/cart/add.js`:
`{ id: <variantId>, quantity: <int> }`. -/
structure CartItem where
  id : Nat
  quantity : Nat
deriving DecidableEq

/-- Outcome of a `fetch`: a parsed payload on a 2xx response, a non-2xx
response (`res.ok` false), or a thrown network error. -/
inductive FetchResult (α : Type) where
  | ok (payload : α)
  | httpError
  | networkError
deriving DecidableEq

/-- The `selections` / `variantSelections` object of the widget: a map
from option name to the chosen value, modelled as an association list
(JS object keys are unique, but no theorem below needs that). -/
def Selections : Type := List (String × String)

/-- Models JS `Array.prototype.indexOf` / `findIndex` result on a list of
option names (`-1` becomes `none`): the index of the first element equal
to `n`, if any.  Used by `Stl.resolveVariant`
(`currentProduct.options.indexOf(optName)`, line 372). -/
def indexOfName (options : List String) (n : String) : Option Nat :=
  match options with
  | [] => none
  | o :: rest => if o == n then some 0 else (indexOfName rest n).map (· + 1)

/- ================================================================
   Money formatting machinery shared by the two implementations.
   Both sources use the same regex `/\{\{\s*(\w+)\s*\}\}/`, the same
   `(num / 100).toFixed(precision)` call, and the same thousands-grouping
   regex `/(\d)(?=(\d{3})+(?!\d))/g`; the shared pieces are modelled once
   here and the differing wrappers per namespace below.
   ================================================================ -/

/-- The character `{`. -/
def lbrace : Char := Char.ofNat 123

/-- The character `}`. -/
def rbrace : Char := Char.ofNat 125

/-- JS regex `\w`: ASCII letters, digits and underscore. -/
def isWordChar (c : Char) : Bool :=
  c.isAlphanum || c == '_'

/-- Try to match the regex `\{\{\s*(\w+)\s*\}\}` at the head of `cs`;
on success return the captured key and the remaining characters.  The
sub-patterns `\s*`, `\w+`, `\s*` draw from disjoint character classes and
are followed by a fixed delimiter, so maximal munch coincides with the
backtracking regex semantics. -/
def matchPlaceholderAt (cs : List Char) : Option (String × List Char) :=
  match cs with
  | c1 :: c2 :: rest =>
    if c1 == lbrace && c2 == lbrace then
      let (_, r1) := rest.span Char.isWhitespace
      let (word, r2) := r1.span isWordChar
      match word with
      | [] => none
      | _ :: _ =>
        let (_, r3) := r2.span Char.isWhitespace
        match r3 with
        | d1 :: d2 :: r4 =>
          if d1 == rbrace && d2 == rbrace then some (String.mk word, r4) else none
        | _ => none
    else none
  | _ => none

/-- First match of the placeholder regex in a character list: returns the
characters before the match, the captured key, and the characters after
the match — exactly the data `String.prototype.match` and a non-global
`String.prototype.replace` use. -/
def findPlaceholder : List Char → Option (List Char × String × List Char)
  | [] => none
  | c :: cs =>
    match matchPlaceholderAt (c :: cs) with
    | some (k, rest) => some ([], k, rest)
    | none =>
      match findPlaceholder cs with
      | some (pre, k, rest) => some (c :: pre, k, rest)
      | none => none

/-- Two-digit rendering of a value below 100: the fractional digits
produced by `toFixed(2)`. -/
def pad2 (n : Nat) : String :=
  if n < 10 then "0" ++ toString n else toString n

/-- Exact decimal semantics of `(num / 100).toFixed(precision)` for an
integer minor-unit amount `num` and the precisions 0 and 2 — the only
precisions the two sources pass.  `toFixed(0)` rounds to the nearest
integer, ties upward (ECMA-262: "if there are two such n, pick the larger
n"), which on nonnegative amounts is `(num + 50) / 100`. -/
def toFixed100 (num precision : Nat) : String :=
  if precision == 0 then toString ((num + 50) / 100)
  else toString (num / 100) ++ "." ++ pad2 (num % 100)

/-- Thousands grouping: models
`left.replace(/(\d)(?=(\d{3})+(?!\d))/g, '$1' + thousands)` on an
all-digit string — a separator lands after each digit that is followed by
a positive multiple of three further digits. -/
def groupThousands (s : String) (sep : String) : String :=
  let cs := s.data
  let n := cs.length
  String.join (cs.enum.map fun ic =>
    let rem := n - ic.1 - 1
    if rem % 3 == 0 && rem != 0 then String.mk [ic.2] ++ sep else String.mk [ic.2])

/-- JS `String.prototype.toLowerCase` on the ASCII option values the
widget compares (`Char.toLower` lower-cases exactly the ASCII range). -/
def jsToLower (s : String) : String :=
  String.mk (s.data.map Char.toLower)

/-- JS `String.prototype.trim`: strip leading and trailing whitespace. -/
def jsTrim (s : String) : String :=
  String.mk (((s.data.dropWhile Char.isWhitespace).reverse.dropWhile Char.isWhitespace).reverse)

/-- Shared test `v.toLowerCase().trim() === target` applied to the values
of the selection map: `Object.values(selections).some(...)` in the IIFE
(lines 405-410) and `Object.entries(...).some(...)` in the class
(lines 405-410); both read only the value. -/
def hasSelectionValue (sel : List (String × String)) (target : String) : Bool :=
  sel.any fun kv => jsTrim (jsToLower kv.2) == target

/-- Split a character list at its first `.`, returning the part before
and, when a `.` is present, the part after — the `parts[0]` / `parts[1]`
of `fixed.split('.')` in both money formatters (a `toFixed` result
contains at most one `.`, so later segments never exist). -/
def splitAtDot : List Char → List Char × Option (List Char)
  | [] => ([], none)
  | c :: rest =>
    if c == '.' then ([], some rest)
    else
      let (l, r) := splitAtDot rest
      (c :: l, r)

/-- Kind of control rendered for one product option: `<select>` dropdown
or a row of toggle buttons. -/
inductive WidgetKind where
  | dropdown
  | buttons
deriving DecidableEq

/-- One rendered option-picker group: its label, control kind, and the
distinct values offered. -/
structure VariantGroup where
  name : String
  kind : WidgetKind
  values : List String
deriving DecidableEq

/-- State of the add-to-cart submit control. -/
structure BtnState where
  disabled : Bool
  label : String
deriving DecidableEq

/-- Widget state touched by the add-to-cart flow: popup visibility and
the submit control. -/
structure SubmitState where
  popupVisible : Bool
  btn : BtnState
deriving DecidableEq

/-- Externally observable effects of the add-to-cart flow. -/
inductive Effect where
  | postCartAdd (items : List CartItem)
  | fetchCart
  | dispatchEvent (eventName : String)
deriving DecidableEq

/-- Display state updated by variant resolution: the hidden variant-id
field, the price text, and the image source. -/
structure DisplayState where
  varIdValue : Option Nat
  priceText : String
  imgSrc : String
deriving DecidableEq

namespace Stl

/-- Product JSON as read by the IIFE implementation: `product.options` is
the ordered list of option names (compared as strings at lines 250 and
372), `product.variants` the ordered variant list.  Display-only fields
(title, description, featured image, price) are not read by any verified
property and are omitted. -/
structure Product where
  options : List String
  variants : List Variant
deriving DecidableEq

/-- The predicate passed to `currentProduct.variants.find` at lines
370-376: every selected option name either does not occur in
`product.options` (`indexOf === -1`, no constraint) or the variant's
value at that option's 1-based position equals the selection. -/
def variantMatches (options : List String) (sel : List (String × String)) (v : Variant) : Bool :=
  sel.all fun kv =>
    match indexOfName options kv.1 with
    | none => true
    | some idx => optionAt v (idx + 1) == some kv.2

/-- The `find` call of `resolveVariant` (lines 370-376): first variant,
in `product.variants` order, satisfying `variantMatches`. -/
def resolveVariantFind (p : Product) (sel : List (String × String)) : Option Variant :=
  p.variants.find? (variantMatches p.options sel)

/-- `delimit` (lines 539-548).  All call sites pass `precision`
explicitly (0 or 2); the `thousands || ','` and `decimal || '.'` defaults
are resolved at each call site below.  `toFixed` splits into an integer
part (thousands-grouped) and optional fractional digits, re-joined with
the custom decimal mark (`parts[1] ? left + decimal + parts[1] : left`). -/
def delimit (num precision : Nat) (thousands decimal : String) : String :=
  let fixed := toFixed100 num precision
  match splitAtDot fixed.data with
  | (left, some (f :: fs)) =>
    groupThousands (String.mk left) thousands ++ decimal ++ String.mk (f :: fs)
  | (left, some []) => groupThousands (String.mk left) thousands
  | (left, none) => groupThousands (String.mk left) thousands

/-- The `switch (key)` of `formatMoney` (lines 554-567), with the
defaults of `delimit` resolved: `delimit(cents, 2)` is
`delimit cents 2 "," "."`, `delimit(cents, 0, ' ')` is
`delimit cents 0 " " "."`, and so on. -/
def moneyValue (cents : Nat) (key : String) : String :=
  if key = "amount" then delimit cents 2 "," "."
  else if key = "amount_no_decimals" then delimit cents 0 "," "."
  else if key = "amount_with_comma_separator" then delimit cents 2 "." ","
  else if key = "amount_no_decimals_with_comma_separator" then delimit cents 0 "." ","
  else if key = "amount_no_decimals_with_space_separator" then delimit cents 0 " " "."
  else delimit cents 2 "," "."

/-- `formatMoney` (lines 524-570) on an already numeric amount
(`parseInt` has been applied; the widget always passes the integer
`price` field).  `(fmt.match(placeholder) || [])[1] || 'amount'` defaults
a missing placeholder to the key `'amount'`, and
`fmt.replace(placeholder, value)` with no match returns `fmt`
unchanged — so a template without a placeholder comes back verbatim. -/
def formatMoney (cents : Nat) (fmt : String) : String :=
  match findPlaceholder fmt.data with
  | some (pre, key, post) => String.mk pre ++ moneyValue cents key ++ String.mk post
  | none => fmt

/-- `getUniqueOptionValues` (lines 506-513): the ordered distinct values
appearing across `product.variants` at a 1-based option position; a
falsy value (absent slot or empty string) is skipped. -/
def getUniqueOptionValues (p : Product) (position : Nat) : List String :=
  p.variants.foldl
    (fun seen v =>
      match optionAt v position with
      | some val => if val != "" && !(seen.contains val) then seen ++ [val] else seen
      | none => seen)
    []

/-- `renderVariantSelectors` (lines 242-279) as the list of option-picker
groups it appends to the variant container: nothing when there are no
options or the only option is the placeholder name `Title`; otherwise,
per option position with a nonempty distinct-value list, one group —
a dropdown when the lower-cased name equals `size`, else buttons. -/
def renderVariantSelectors (p : Product) : List VariantGroup :=
  if p.options.isEmpty || (p.options.length == 1 && p.options.headD "" == "Title") then []
  else
    p.options.enum.filterMap fun ie =>
      let position := ie.1 + 1
      let values := getUniqueOptionValues p position
      if values.isEmpty then none
      else
        some { name := ie.2
               kind := if jsToLower ie.2 == "size" then .dropdown else .buttons
               values := values }

/-- The items list built by `handleAddToCart` (lines 398-424): the
selected variant first, then — when the selection values contain both
`black` and `medium` (lower-cased, trimmed) and the
`soft-winter-jacket` fetch succeeds with a nonempty variants array — the
jacket's first variant.  The fetched jacket product is represented by its
`variants` array, the only field the code reads; a thrown fetch error is
swallowed by the inner `try`/`catch` and a non-ok response skipped, both
leaving the items list unchanged. -/
def buildItems (selectedVariant : Variant) (sel : List (String × String))
    (jacketFetch : FetchResult (List Variant)) : List CartItem :=
  let items : List CartItem := [{ id := selectedVariant.id, quantity := 1 }]
  let hasBlack := hasSelectionValue sel "black"
  let hasMedium := hasSelectionValue sel "medium"
  if hasBlack && hasMedium then
    match jacketFetch with
    | .ok jacketVariants =>
      match jacketVariants with
      | [] => items
      | jv :: _ => items ++ [{ id := jv.id, quantity := 1 }]
    | .httpError => items
    | .networkError => items
  else items

/-- `refreshCart` (lines 474-494) as its effect list: the `/cart.js`
fetch always happens; the `cart:update` event is dispatched only when
that fetch and its JSON parse succeed (a failure is caught and logged). -/
def refreshCart (cartFetchOk : Bool) : List Effect :=
  if cartFetchOk then [Effect.fetchCart, Effect.dispatchEvent "cart:update"]
  else [Effect.fetchCart]

/-- The submit phase of `handleAddToCart` (lines 427-460) after the items
list is built, with both `setTimeout` callbacks modelled as having fired:
on success the popup is closed and the button restored after 900ms; on
failure (`fetch` threw or `res.ok` was false) the popup is left alone and
the button restored after 2000ms.  The transient labels (`Adding…`,
`Added ✓`, `Error – try again`) are overwritten by the restore and do not
appear in the final state. -/
def submitCart (st : SubmitState) (items : List CartItem) (cartAddOk cartFetchOk : Bool) :
    SubmitState × List Effect :=
  let origHTML := st.btn.label
  if cartAddOk then
    ({ popupVisible := false, btn := { disabled := false, label := origHTML } },
      Effect.postCartAdd items :: refreshCart cartFetchOk)
  else
    ({ popupVisible := st.popupVisible, btn := { disabled := false, label := origHTML } },
      [Effect.postCartAdd items])

/-- `resolveVariant` (lines 367-388) as a state transformer: when the
`find` call produces a match, the selected variant, hidden variant-id
field and price text are updated and the image swapped if the variant
carries its own `featured_image`; when it produces nothing, every piece
of state is left untouched. -/
def resolveVariant (p : Product) (sel : List (String × String)) (fmt : String)
    (selectedVariant : Option Variant) (disp : DisplayState) :
    Option Variant × DisplayState :=
  match p.variants.find? (variantMatches p.options sel) with
  | some m =>
    (some m,
      { varIdValue := some m.id
        priceText := formatMoney m.price fmt
        imgSrc :=
          match m.featured_image with
          | some img => img.src
          | none => disp.imgSrc })
  | none => (selectedVariant, disp)

/-- The resolver's matching requirement, stated the way the specification
words it: for every option name present in the selection state that
occurs in `product.options`, the variant's value at that option's 1-based
position equals the selected value; other entries impose no constraint. -/
def SatisfiesSelection (options : List String) (sel : List (String × String)) (v : Variant) : Prop :=
  ∀ kv ∈ sel, ∀ i, indexOfName options kv.1 = some i → optionAt v (i + 1) = some kv.2

instance (options : List String) (sel : List (String × String)) (v : Variant) :
    Decidable (SatisfiesSelection options sel v) := by
  unfold SatisfiesSelection; infer_instance

end Stl

/-- Does the character list start with the given pattern?  Helper for the
substring test below. -/
def startsWithSeq : List Char → List Char → Bool
  | _, [] => true
  | [], _ :: _ => false
  | h :: hs, n :: ns => h == n && startsWithSeq hs ns

/-- Does the haystack contain the pattern as a contiguous subsequence? -/
def containsSeq : List Char → List Char → Bool
  | _, [] => true
  | [], _ :: _ => false
  | h :: hs, n :: ns => startsWithSeq (h :: hs) (n :: ns) || containsSeq hs (n :: ns)

/-- JS `String.prototype.includes`. -/
def strContains (s pat : String) : Bool :=
  containsSeq s.data pat.data

namespace Pgp

/-- One entry of `product.options` as the class implementation reads it:
only the `name` member is accessed (`opt.name`). -/
structure ProductOption where
  name : String
deriving DecidableEq

/-- Product JSON as read by the class implementation: `product.options`
is a list of option objects; other display-only fields are omitted as in
`Stl.Product`. -/
structure Product where
  options : List ProductOption
  variants : List Variant
deriving DecidableEq

/-- Models `this.currentProduct.options.findIndex(opt => opt.name ===
optionName)` (line 352), with `-1` as `none`. -/
def findOptionIndex (options : List ProductOption) (n : String) : Option Nat :=
  match options with
  | [] => none
  | o :: rest => if o.name == n then some 0 else (findOptionIndex rest n).map (· + 1)

/-- The predicate passed to `this.currentProduct.variants.find` at lines
350-357: same shape as `Stl.variantMatches`, but the option index is
looked up through the option objects' `name` member. -/
def variantMatches (options : List ProductOption) (sel : List (String × String)) (v : Variant) : Bool :=
  sel.all fun kv =>
    match findOptionIndex options kv.1 with
    | none => true
    | some idx => optionAt v (idx + 1) == some kv.2

/-- The `find` call of `updateSelectedVariant` (lines 350-357). -/
def updateSelectedVariantFind (p : Product) (sel : List (String × String)) : Option Variant :=
  p.variants.find? (variantMatches p.options sel)

/-- `formatWithDelimiters` (lines 514-533).  `precision = precision || 2`
replaces a passed-in `0` by `2` — so the `amount_no_decimals*` modes of
this implementation render two decimals.  The `isNaN(number)` guard never
fires on the integer amounts modelled here. -/
def formatWithDelimiters (number precision : Nat) (thousands decimal : String) : String :=
  let precision := if precision == 0 then 2 else precision
  let fixed := toFixed100 number precision
  match splitAtDot fixed.data with
  | (dollars, some (f :: fs)) =>
    groupThousands (String.mk dollars) thousands ++ decimal ++ String.mk (f :: fs)
  | (dollars, some []) => groupThousands (String.mk dollars) thousands
  | (dollars, none) => groupThousands (String.mk dollars) thousands

/-- The `switch` of the class `formatMoney` (lines 535-553), with the
`formatWithDelimiters` defaults resolved as in `Stl.moneyValue`. -/
def moneyValue (cents : Nat) (key : String) : String :=
  if key = "amount" then formatWithDelimiters cents 2 "," "."
  else if key = "amount_no_decimals" then formatWithDelimiters cents 0 "," "."
  else if key = "amount_with_comma_separator" then formatWithDelimiters cents 2 "." ","
  else if key = "amount_no_decimals_with_comma_separator" then formatWithDelimiters cents 0 "." ","
  else if key = "amount_no_decimals_with_space_separator" then formatWithDelimiters cents 0 " " "."
  else formatWithDelimiters cents 2 "," "."

/-- The class `formatMoney` (lines 505-556) on a numeric amount.  Unlike
the IIFE version it indexes the match result without a guard
(`formatString.match(placeholderRegex)[1]`), so a template with no
placeholder throws a `TypeError`; that failure is modelled as `none`. -/
def formatMoney (cents : Nat) (formatString : String) : Option String :=
  match findPlaceholder formatString.data with
  | some (pre, key, post) => some (String.mk pre ++ moneyValue cents key ++ String.mk post)
  | none => none

/-- `getOptionValues` (lines 309-318): identical collection of ordered
distinct positional values as `Stl.getUniqueOptionValues`. -/
def getOptionValues (p : Product) (position : Nat) : List String :=
  p.variants.foldl
    (fun values v =>
      match optionAt v position with
      | some value => if value != "" && !(values.contains value) then values ++ [value] else values
      | none => values)
    []

/-- `renderVariants` (lines 205-301) as the list of rendered groups: the
skip conditions mirror lines 213-216 (`options[0].name === 'Title'`), and
the dropdown is chosen when the lower-cased name merely contains `size`
(`optionName.toLowerCase().includes('size')`, line 237). -/
def renderVariants (p : Product) : List VariantGroup :=
  if p.options.isEmpty ||
      (p.options.length == 1 && (p.options.headD { name := "" }).name == "Title") then []
  else
    let optionNames := p.options.map fun opt => opt.name
    optionNames.enum.filterMap fun ie =>
      let optionPosition := ie.1 + 1
      let optionValues := getOptionValues p optionPosition
      if optionValues.isEmpty then none
      else
        some { name := ie.2
               kind := if strContains (jsToLower ie.2) "size" then .dropdown else .buttons
               values := optionValues }

/-- The items list built by the class `handleAddToCart` (lines 387-431):
same construction as `Stl.buildItems` — primary item first, jacket's
first variant appended only when both `black` and `medium` are among the
selection values and the jacket fetch succeeds with a nonempty variants
array; the inner `try`/`catch` swallows a thrown jacket fetch. -/
def buildItems (selectedVariant : Variant) (sel : List (String × String))
    (jacketFetch : FetchResult (List Variant)) : List CartItem :=
  let items : List CartItem := [{ id := selectedVariant.id, quantity := 1 }]
  let hasBlack := hasSelectionValue sel "black"
  let hasMedium := hasSelectionValue sel "medium"
  if hasBlack && hasMedium then
    match jacketFetch with
    | .ok jacketVariants =>
      match jacketVariants with
      | [] => items
      | jv :: _ => items ++ [{ id := jv.id, quantity := 1 }]
    | .httpError => items
    | .networkError => items
  else items

/-- `updateCartCount` (lines 474-498) as its effect list: the `/cart.js`
fetch always happens; the `cart:updated` event is dispatched only when
the fetch and parse succeed (a failure is caught and logged). -/
def updateCartCount (cartFetchOk : Bool) : List Effect :=
  if cartFetchOk then [Effect.fetchCart, Effect.dispatchEvent "cart:updated"]
  else [Effect.fetchCart]

/-- The submit phase of the class `handleAddToCart` (lines 393-468) after
the items list is built, with the success-path `setTimeout` modelled as
having fired: on success the popup is closed and the button restored
after 1000ms; on failure the `catch` block alerts and restores the button
immediately, leaving the popup alone.  Transient labels are overwritten
by the restore as in `Stl.submitCart`. -/
def submitCart (st : SubmitState) (items : List CartItem) (cartAddOk cartFetchOk : Bool) :
    SubmitState × List Effect :=
  let originalText := st.btn.label
  if cartAddOk then
    ({ popupVisible := false, btn := { disabled := false, label := originalText } },
      Effect.postCartAdd items :: updateCartCount cartFetchOk)
  else
    ({ popupVisible := st.popupVisible, btn := { disabled := false, label := originalText } },
      [Effect.postCartAdd items])

/-- `updateSelectedVariant` (lines 347-382) as a state transformer: same
shape as `Stl.resolveVariant`, except that the price text goes through
the class `formatMoney`, whose `TypeError` on a placeholder-free template
(modelled `none`) aborts the update; the outer `none` models that thrown
exception. -/
def updateSelectedVariant (p : Product) (sel : List (String × String)) (fmt : String)
    (selectedVariant : Option Variant) (disp : DisplayState) :
    Option (Option Variant × DisplayState) :=
  match p.variants.find? (variantMatches p.options sel) with
  | some variant =>
    match formatMoney variant.price fmt with
    | none => none
    | some priceText =>
      some (some variant,
        { varIdValue := some variant.id
          priceText := priceText
          imgSrc :=
            match variant.featured_image with
            | some img => img.src
            | none => disp.imgSrc })
  | none => some (selectedVariant, disp)

/-- The resolver's matching requirement in the specification's wording,
for the class implementation's option objects. -/
def SatisfiesSelection (options : List ProductOption) (sel : List (String × String)) (v : Variant) : Prop :=
  ∀ kv ∈ sel, ∀ i, findOptionIndex options kv.1 = some i → optionAt v (i + 1) = some kv.2

instance (options : List ProductOption) (sel : List (String × String)) (v : Variant) :
    Decidable (SatisfiesSelection options sel v) := by
  unfold SatisfiesSelection; infer_instance

end Pgp

/-- View a class-implementation product through the IIFE implementation's
eyes: the same variants, the options reduced to their names.  Used to
state the refinement between the two implementations. -/
def stlOfPgp (q : Pgp.Product) : Stl.Product :=
  { options := q.options.map fun o => o.name, variants := q.variants }

/- ================================================================
   Helper lemmas
   ================================================================ -/

/-- `find?` only depends on the pointwise behaviour of its predicate. -/
theorem find?_ext {α : Type} {p q : α → Bool} (l : List α) (h : ∀ a, p a = q a) :
    l.find? p = l.find? q := by
  induction l with
  | nil => rfl
  | cons a t ih =>
    by_cases hpa : p a
    · rw [List.find?_cons_of_pos _ hpa, List.find?_cons_of_pos _ (h a ▸ hpa)]
    · rw [List.find?_cons_of_neg _ hpa, List.find?_cons_of_neg _ (h a ▸ hpa), ih]

/-- A name absent from the option list has no index. -/
theorem indexOfName_eq_none_of_not_mem {options : List String} {n : String}
    (h : n ∉ options) : indexOfName options n = none := by
  induction options with
  | nil => rfl
  | cons o t ih =>
    rw [List.mem_cons, not_or] at h
    have ho : (o == n) = false := by
      simp only [beq_eq_false_iff_ne, ne_eq]
      exact fun e => h.1 e.symm
    simp [indexOfName, ho, ih h.2]

/-- A name carried by none of the option objects has no index. -/
theorem findOptionIndex_eq_none {options : List Pgp.ProductOption} {n : String}
    (h : ∀ o ∈ options, o.name ≠ n) : Pgp.findOptionIndex options n = none := by
  induction options with
  | nil => rfl
  | cons o t ih =>
    have ho : (o.name == n) = false := by
      simp only [beq_eq_false_iff_ne, ne_eq]
      exact h o (List.mem_cons_self o t)
    simp [Pgp.findOptionIndex, ho, ih (fun o' ho' => h o' (List.mem_cons_of_mem _ ho'))]

/-- The executable matching predicate of the IIFE resolver agrees with
the specification-worded requirement. -/
theorem stl_variantMatches_iff (options : List String) (sel : List (String × String)) (v : Variant) :
    Stl.variantMatches options sel v = true ↔ Stl.SatisfiesSelection options sel v := by
  unfold Stl.variantMatches Stl.SatisfiesSelection
  rw [List.all_eq_true]
  refine forall_congr' fun kv => forall_congr' fun _ => ?_
  cases h : indexOfName options kv.1 with
  | none => simp [h]
  | some i => simp [h, beq_iff_eq]

/-- The executable matching predicate of the class resolver agrees with
the specification-worded requirement. -/
theorem pgp_variantMatches_iff (options : List Pgp.ProductOption) (sel : List (String × String))
    (v : Variant) :
    Pgp.variantMatches options sel v = true ↔ Pgp.SatisfiesSelection options sel v := by
  unfold Pgp.variantMatches Pgp.SatisfiesSelection
  rw [List.all_eq_true]
  refine forall_congr' fun kv => forall_congr' fun _ => ?_
  cases h : Pgp.findOptionIndex options kv.1 with
  | none => simp [h]
  | some i => simp [h, beq_iff_eq]

/-- Looking a name up in the mapped-out option names is looking it up
through the option objects. -/
theorem indexOfName_map_name (options : List Pgp.ProductOption) (n : String) :
    indexOfName (options.map fun o => o.name) n = Pgp.findOptionIndex options n := by
  induction options with
  | nil => rfl
  | cons o t ih => simp [indexOfName, Pgp.findOptionIndex, ih]

/-- The two resolvers' matching predicates agree on corresponding
products. -/
theorem variantMatches_stlOfPgp (q : Pgp.Product) (sel : List (String × String)) (v : Variant) :
    Stl.variantMatches (q.options.map fun o => o.name) sel v = Pgp.variantMatches q.options sel v := by
  unfold Stl.variantMatches Pgp.variantMatches
  congr 1
  funext kv
  rw [indexOfName_map_name]

/-- The two resolvers' `find` calls agree on corresponding products. -/
theorem resolveFind_stlOfPgp (q : Pgp.Product) (sel : List (String × String)) :
    Pgp.updateSelectedVariantFind q sel = Stl.resolveVariantFind (stlOfPgp q) sel := by
  unfold Pgp.updateSelectedVariantFind Stl.resolveVariantFind stlOfPgp
  exact (find?_ext _ fun v => variantMatches_stlOfPgp q sel v).symm

/-- The two distinct-value collectors agree on corresponding products. -/
theorem getValues_stlOfPgp (q : Pgp.Product) (position : Nat) :
    Stl.getUniqueOptionValues (stlOfPgp q) position = Pgp.getOptionValues q position := rfl

/-- The class `formatWithDelimiters` at precision 2 is the IIFE
`delimit` at precision 2 (the `precision || 2` default does not fire). -/
theorem formatWithDelimiters_two (n : Nat) (th dec : String) :
    Pgp.formatWithDelimiters n 2 th dec = Stl.delimit n 2 th dec := rfl

/-- The class `formatWithDelimiters` at precision 0 silently becomes the
IIFE `delimit` at precision 2: the `precision = precision || 2` default
replaces `0`. -/
theorem formatWithDelimiters_zero (n : Nat) (th dec : String) :
    Pgp.formatWithDelimiters n 0 th dec = Stl.delimit n 2 th dec := rfl

/-- The two renderers produce the same groups up to the widget kind:
same labels, same values, same skip conditions, in the same order. -/
theorem render_proj_stlOfPgp (q : Pgp.Product) :
    (Pgp.renderVariants q).map (fun g => (g.name, g.values)) =
    (Stl.renderVariantSelectors (stlOfPgp q)).map (fun g => (g.name, g.values)) := by
  obtain ⟨opts, vars⟩ := q
  show (Pgp.renderVariants ⟨opts, vars⟩).map (fun g => (g.name, g.values)) =
    (Stl.renderVariantSelectors ⟨opts.map fun o => o.name, vars⟩).map (fun g => (g.name, g.values))
  unfold Pgp.renderVariants Stl.renderVariantSelectors
  have hcond : ((opts.map fun o => o.name).isEmpty ||
      ((opts.map fun o => o.name).length == 1 && (opts.map fun o => o.name).headD "" == "Title"))
      = (opts.isEmpty || (opts.length == 1 && (opts.headD { name := "" }).name == "Title")) := by
    cases opts with
    | nil => rfl
    | cons o t => simp
  dsimp only
  rw [hcond]
  by_cases h : (opts.isEmpty ||
      (opts.length == 1 && (opts.headD { name := "" }).name == "Title")) = true
  · rw [if_pos h, if_pos h]
  · rw [if_neg h, if_neg h]
    rw [List.map_filterMap, List.map_filterMap]
    congr 1
    funext ie
    have hv : Stl.getUniqueOptionValues ⟨opts.map fun o => o.name, vars⟩ (ie.1 + 1)
        = Pgp.getOptionValues ⟨opts, vars⟩ (ie.1 + 1) := rfl
    by_cases he : (Pgp.getOptionValues ⟨opts, vars⟩ (ie.1 + 1)).isEmpty = true
    · simp [hv, he]
    · simp [hv, he]

/- ================================================================
   Claim theorems
   ================================================================ -/

/-- C2: for every selection state whose values contain, after lowercasing
and trimming, both `black` and `medium` (under any option names), and
when the soft-winter-jacket fetch succeeds with at least one variant,
both implementations of `handleAddToCart` build an items list of exactly
two entries — `{id: selectedVariant.id, quantity: 1}` first and
`{id: jacket.variants[0].id, quantity: 1}` second; when the pair is not
jointly selected, exactly one item is built, whatever the fetch did. -/
theorem C2_bundle_rule (sv : Variant) (sel : List (String × String)) (jv : Variant)
    (jvs : List Variant) (r : FetchResult (List Variant)) :
    (hasSelectionValue sel "black" = true → hasSelectionValue sel "medium" = true →
      Stl.buildItems sv sel (.ok (jv :: jvs)) = [⟨sv.id, 1⟩, ⟨jv.id, 1⟩] ∧
      Pgp.buildItems sv sel (.ok (jv :: jvs)) = [⟨sv.id, 1⟩, ⟨jv.id, 1⟩]) ∧
    ((hasSelectionValue sel "black" && hasSelectionValue sel "medium") = false →
      Stl.buildItems sv sel r = [⟨sv.id, 1⟩] ∧ Pgp.buildItems sv sel r = [⟨sv.id, 1⟩]) := by
  constructor
  · intro hb hm
    constructor <;> simp [Stl.buildItems, Pgp.buildItems, hb, hm]
  · intro hf
    constructor <;> simp [Stl.buildItems, Pgp.buildItems, hf]

/-- C2 witness: the bundle rule evaluated at a concrete black-and-medium
selection with a one-variant jacket, and at a selection missing the
pair. -/
theorem C2_bundle_rule_witness :
    (Stl.buildItems ⟨10, 100, some "Black", some "Medium", none, none⟩
        [("Color", " Black "), ("Size", "MEDIUM")]
        (.ok [⟨77, 500, none, none, none, none⟩]) = [⟨10, 1⟩, ⟨77, 1⟩] ∧
      Pgp.buildItems ⟨10, 100, some "Black", some "Medium", none, none⟩
        [("Color", " Black "), ("Size", "MEDIUM")]
        (.ok [⟨77, 500, none, none, none, none⟩]) = [⟨10, 1⟩, ⟨77, 1⟩]) ∧
    (Stl.buildItems ⟨10, 100, some "Red", none, none, none⟩
        [("Color", "Red")] .httpError = [⟨10, 1⟩] ∧
      Pgp.buildItems ⟨10, 100, some "Red", none, none, none⟩
        [("Color", "Red")] .httpError = [⟨10, 1⟩]) :=
  ⟨(C2_bundle_rule ⟨10, 100, some "Black", some "Medium", none, none⟩
      [("Color", " Black "), ("Size", "MEDIUM")] ⟨77, 500, none, none, none, none⟩ []
      .httpError).1 (by decide) (by decide),
    (C2_bundle_rule ⟨10, 100, some "Red", none, none, none⟩ [("Color", "Red")]
      ⟨77, 500, none, none, none, none⟩ [] .httpError).2 (by decide)⟩

/-- C6: when the selection state triggers the bundle rule but the
soft-winter-jacket fetch fails — thrown network error, non-2xx status,
or a product with an empty variants array — both implementations still
build exactly the one primary item `{id: selectedVariant.id, quantity:
1}`; the bundle failure does not propagate into the items list. -/
theorem C6_bundle_failure (sv : Variant) (sel : List (String × String))
    (r : FetchResult (List Variant)) :
    hasSelectionValue sel "black" = true → hasSelectionValue sel "medium" = true →
    (r = .httpError ∨ r = .networkError ∨ r = .ok []) →
    Stl.buildItems sv sel r = [⟨sv.id, 1⟩] ∧ Pgp.buildItems sv sel r = [⟨sv.id, 1⟩] := by
  intro hb hm hr
  rcases hr with h | h | h <;> subst h <;>
    exact ⟨by simp [Stl.buildItems, hb, hm], by simp [Pgp.buildItems, hb, hm]⟩

/-- C6 witness: a black-and-medium selection with a failed jacket fetch
still yields the single primary item. -/
theorem C6_bundle_failure_witness :
    Stl.buildItems ⟨10, 100, some "Black", some "Medium", none, none⟩
      [("Color", "Black"), ("Size", "Medium")] .networkError = [⟨10, 1⟩] ∧
    Pgp.buildItems ⟨10, 100, some "Black", some "Medium", none, none⟩
      [("Color", "Black"), ("Size", "Medium")] .networkError = [⟨10, 1⟩] :=
  C6_bundle_failure ⟨10, 100, some "Black", some "Medium", none, none⟩
    [("Color", "Black"), ("Size", "Medium")] .networkError
    (by decide) (by decide) (Or.inr (Or.inl rfl))

/-- C7: whenever the POST to `/cart/add.js` fails (thrown or non-2xx),
both implementations leave the popup's visibility untouched (`closePopup`
is not invoked), restore the submit control to its original label in the
enabled state, and produce no `/cart.js` fetch and no cart-update event:
the failed POST is the only effect. -/
theorem C7_cart_add_failure (st : SubmitState) (items : List CartItem) (cartFetchOk : Bool) :
    ((Stl.submitCart st items false cartFetchOk).1.popupVisible = st.popupVisible ∧
      (Stl.submitCart st items false cartFetchOk).1.btn
        = { disabled := false, label := st.btn.label } ∧
      (Stl.submitCart st items false cartFetchOk).2 = [Effect.postCartAdd items]) ∧
    ((Pgp.submitCart st items false cartFetchOk).1.popupVisible = st.popupVisible ∧
      (Pgp.submitCart st items false cartFetchOk).1.btn
        = { disabled := false, label := st.btn.label } ∧
      (Pgp.submitCart st items false cartFetchOk).2 = [Effect.postCartAdd items]) :=
  ⟨⟨rfl, rfl, rfl⟩, ⟨rfl, rfl, rfl⟩⟩

/-- C8: a product whose options list is empty, or is exactly the single
platform placeholder option `Title`, renders no option pickers in either
implementation (the variant container stays empty); and an option with
zero distinct values across the variants is skipped — every rendered
group offers a nonempty value list. -/
theorem C8_trivial_options (p : Stl.Product) (q : Pgp.Product) :
    ((p.options = [] ∨ p.options = ["Title"]) → Stl.renderVariantSelectors p = []) ∧
    ((q.options = [] ∨ ∃ o, q.options = [o] ∧ o.name = "Title") → Pgp.renderVariants q = []) ∧
    (∀ g ∈ Stl.renderVariantSelectors p, g.values ≠ []) ∧
    (∀ g ∈ Pgp.renderVariants q, g.values ≠ []) := by
  obtain ⟨popts, pvars⟩ := p
  obtain ⟨qopts, qvars⟩ := q
  refine ⟨?_, ?_, ?_, ?_⟩
  · rintro (h | h) <;> (simp only at h; subst h) <;> rfl
  · rintro (h | ⟨o, h, hn⟩)
    · simp only at h; subst h; rfl
    · simp only at h; subst h
      simp [Pgp.renderVariants, hn]
  · intro g hg
    unfold Stl.renderVariantSelectors at hg
    split at hg
    · simp at hg
    · rw [List.mem_filterMap] at hg
      obtain ⟨ie, _, hf⟩ := hg
      dsimp only at hf
      by_cases he : (Stl.getUniqueOptionValues ⟨popts, pvars⟩ (ie.1 + 1)).isEmpty = true
      · rw [if_pos he] at hf; exact absurd hf (by simp)
      · rw [if_neg he] at hf
        injection hf with hf
        subst hf
        simpa using he
  · intro g hg
    unfold Pgp.renderVariants at hg
    split at hg
    · simp at hg
    · rw [List.mem_filterMap] at hg
      obtain ⟨ie, _, hf⟩ := hg
      dsimp only at hf
      by_cases he : (Pgp.getOptionValues ⟨qopts, qvars⟩ (ie.1 + 1)).isEmpty = true
      · rw [if_pos he] at hf; exact absurd hf (by simp)
      · rw [if_neg he] at hf
        injection hf with hf
        subst hf
        simpa using he

/-- C8 witness: the `options = ["Title"]` single-default-variant product
renders nothing, and a concrete rendered group has a nonempty value
list. -/
theorem C8_trivial_options_witness :
    Stl.renderVariantSelectors ⟨["Title"], [⟨1, 100, some "Default Title", none, none, none⟩]⟩
      = [] ∧
    Pgp.renderVariants ⟨[⟨"Title"⟩], [⟨1, 100, some "Default Title", none, none, none⟩]⟩ = [] ∧
    (⟨"Color", .buttons, ["Black"]⟩ : VariantGroup).values ≠ [] :=
  ⟨(C8_trivial_options ⟨["Title"], [⟨1, 100, some "Default Title", none, none, none⟩]⟩
      ⟨[], []⟩).1 (Or.inr rfl),
    (C8_trivial_options ⟨[], []⟩
      ⟨[⟨"Title"⟩], [⟨1, 100, some "Default Title", none, none, none⟩]⟩).2.1
      (Or.inr ⟨⟨"Title"⟩, rfl, rfl⟩),
    (C8_trivial_options ⟨["Color"], [⟨1, 100, some "Black", none, none, none⟩]⟩ ⟨[], []⟩).2.2.1
      ⟨"Color", .buttons, ["Black"]⟩ (by decide)⟩

/-- C9: when no variant satisfies the current selections, re-running
variant resolution leaves the previously selected variant and the whole
display state (hidden variant-id field, price text, image) unchanged in
both implementations; and the IIFE resolver only ever replaces the
selected variant by a found match, never by an unset value. -/
theorem C9_stale_variant (p : Stl.Product) (q : Pgp.Product) (sel : List (String × String))
    (fmt : String) (sv : Option Variant) (disp : DisplayState) :
    (p.variants.find? (Stl.variantMatches p.options sel) = none →
      Stl.resolveVariant p sel fmt sv disp = (sv, disp)) ∧
    (q.variants.find? (Pgp.variantMatches q.options sel) = none →
      Pgp.updateSelectedVariant q sel fmt sv disp = some (sv, disp)) ∧
    ((Stl.resolveVariant p sel fmt sv disp).1 = sv ∨
      ∃ m, p.variants.find? (Stl.variantMatches p.options sel) = some m ∧
        (Stl.resolveVariant p sel fmt sv disp).1 = some m) := by
  refine ⟨?_, ?_, ?_⟩
  · intro h; simp [Stl.resolveVariant, h]
  · intro h; simp [Pgp.updateSelectedVariant, h]
  · unfold Stl.resolveVariant
    cases h : p.variants.find? (Stl.variantMatches p.options sel) with
    | none => exact Or.inl rfl
    | some m => exact Or.inr ⟨m, rfl, rfl⟩

/-- C9 witness: with the single variant `Black` and the selection
`Color = Red` nothing matches, and both resolvers keep the stale
selected variant and display state. -/
theorem C9_stale_variant_witness :
    Stl.resolveVariant ⟨["Color"], [⟨5, 100, some "Black", none, none, none⟩]⟩
      [("Color", "Red")] "$\x7b\x7bamount\x7d\x7d"
      (some ⟨5, 100, some "Black", none, none, none⟩) ⟨some 5, "$1.00", "img.jpg"⟩
      = (some ⟨5, 100, some "Black", none, none, none⟩, ⟨some 5, "$1.00", "img.jpg"⟩) ∧
    Pgp.updateSelectedVariant ⟨[⟨"Color"⟩], [⟨5, 100, some "Black", none, none, none⟩]⟩
      [("Color", "Red")] "$\x7b\x7bamount\x7d\x7d"
      (some ⟨5, 100, some "Black", none, none, none⟩) ⟨some 5, "$1.00", "img.jpg"⟩
      = some (some ⟨5, 100, some "Black", none, none, none⟩, ⟨some 5, "$1.00", "img.jpg"⟩) :=
  ⟨(C9_stale_variant ⟨["Color"], [⟨5, 100, some "Black", none, none, none⟩]⟩
      ⟨[⟨"Color"⟩], [⟨5, 100, some "Black", none, none, none⟩]⟩ [("Color", "Red")]
      "$\x7b\x7bamount\x7d\x7d" (some ⟨5, 100, some "Black", none, none, none⟩)
      ⟨some 5, "$1.00", "img.jpg"⟩).1 (by decide),
    (C9_stale_variant ⟨["Color"], [⟨5, 100, some "Black", none, none, none⟩]⟩
      ⟨[⟨"Color"⟩], [⟨5, 100, some "Black", none, none, none⟩]⟩ [("Color", "Red")]
      "$\x7b\x7bamount\x7d\x7d" (some ⟨5, 100, some "Black", none, none, none⟩)
      ⟨some 5, "$1.00", "img.jpg"⟩).2.1 (by decide)⟩

/-- C10: a selection entry whose option name occurs nowhere among the
product's options is non-constraining in both resolvers: inserting such
an entry anywhere in the selection state (equivalently, removing it)
never changes which variant is returned. -/
theorem C10_unknown_option (p : Stl.Product) (q : Pgp.Product) (nm val : String)
    (sel₁ sel₂ : List (String × String)) :
    (nm ∉ p.options →
      Stl.resolveVariantFind p (sel₁ ++ (nm, val) :: sel₂)
        = Stl.resolveVariantFind p (sel₁ ++ sel₂)) ∧
    ((∀ o ∈ q.options, o.name ≠ nm) →
      Pgp.updateSelectedVariantFind q (sel₁ ++ (nm, val) :: sel₂)
        = Pgp.updateSelectedVariantFind q (sel₁ ++ sel₂)) := by
  constructor
  · intro h
    unfold Stl.resolveVariantFind
    apply find?_ext
    intro v
    unfold Stl.variantMatches
    simp only [List.all_append, List.all_cons, indexOfName_eq_none_of_not_mem h, Bool.true_and]
  · intro h
    unfold Pgp.updateSelectedVariantFind
    apply find?_ext
    intro v
    unfold Pgp.variantMatches
    simp only [List.all_append, List.all_cons, findOptionIndex_eq_none h, Bool.true_and]

/-- C10 witness: adding a `Material` entry to a product that has only a
`Color` option leaves the resolved variant unchanged. -/
theorem C10_unknown_option_witness :
    Stl.resolveVariantFind ⟨["Color"], [⟨5, 100, some "Black", none, none, none⟩]⟩
      [("Color", "Black"), ("Material", "Wool")]
      = Stl.resolveVariantFind ⟨["Color"], [⟨5, 100, some "Black", none, none, none⟩]⟩
          [("Color", "Black")] ∧
    Pgp.updateSelectedVariantFind ⟨[⟨"Color"⟩], [⟨5, 100, some "Black", none, none, none⟩]⟩
      [("Color", "Black"), ("Material", "Wool")]
      = Pgp.updateSelectedVariantFind ⟨[⟨"Color"⟩], [⟨5, 100, some "Black", none, none, none⟩]⟩
          [("Color", "Black")] :=
  ⟨(C10_unknown_option ⟨["Color"], [⟨5, 100, some "Black", none, none, none⟩]⟩
      ⟨[⟨"Color"⟩], [⟨5, 100, some "Black", none, none, none⟩]⟩ "Material" "Wool"
      [("Color", "Black")] []).1 (by decide),
    (C10_unknown_option ⟨["Color"], [⟨5, 100, some "Black", none, none, none⟩]⟩
      ⟨[⟨"Color"⟩], [⟨5, 100, some "Black", none, none, none⟩]⟩ "Material" "Wool"
      [("Color", "Black")] []).2 (by decide)⟩

/-- C3: each resolver returns precisely the first variant, in
`product.variants` order, that meets the specification's matching
requirement — every option name present in the selection state that
occurs in the product's options must carry the selected value at that
option's 1-based position, names absent from the selection or from the
options constraining nothing — and every earlier variant fails the
requirement (declaration-order tie-break). -/
theorem C3_resolver_first_match (p : Stl.Product) (q : Pgp.Product)
    (sel : List (String × String)) (v w : Variant) :
    (Stl.resolveVariantFind p sel = some v ↔
      ∃ l₁ l₂, p.variants = l₁ ++ v :: l₂ ∧ Stl.SatisfiesSelection p.options sel v ∧
        ∀ u ∈ l₁, ¬ Stl.SatisfiesSelection p.options sel u) ∧
    (Pgp.updateSelectedVariantFind q sel = some w ↔
      ∃ l₁ l₂, q.variants = l₁ ++ w :: l₂ ∧ Pgp.SatisfiesSelection q.options sel w ∧
        ∀ u ∈ l₁, ¬ Pgp.SatisfiesSelection q.options sel u) := by
  constructor
  · unfold Stl.resolveVariantFind
    rw [List.find?_eq_some]
    simp only [Bool.not_eq_true']
    constructor
    · rintro ⟨hp, l₁, l₂, heq, hall⟩
      refine ⟨l₁, l₂, heq, (stl_variantMatches_iff _ _ _).1 hp, fun u hu hs => ?_⟩
      have h1 := (stl_variantMatches_iff p.options sel u).2 hs
      rw [hall u hu] at h1
      exact Bool.false_ne_true h1
    · rintro ⟨l₁, l₂, heq, hsat, hprev⟩
      refine ⟨(stl_variantMatches_iff _ _ _).2 hsat, l₁, l₂, heq, fun u hu => ?_⟩
      cases hb : Stl.variantMatches p.options sel u with
      | false => rfl
      | true => exact absurd ((stl_variantMatches_iff _ _ _).1 hb) (hprev u hu)
  · unfold Pgp.updateSelectedVariantFind
    rw [List.find?_eq_some]
    simp only [Bool.not_eq_true']
    constructor
    · rintro ⟨hp, l₁, l₂, heq, hall⟩
      refine ⟨l₁, l₂, heq, (pgp_variantMatches_iff _ _ _).1 hp, fun u hu hs => ?_⟩
      have h1 := (pgp_variantMatches_iff q.options sel u).2 hs
      rw [hall u hu] at h1
      exact Bool.false_ne_true h1
    · rintro ⟨l₁, l₂, heq, hsat, hprev⟩
      refine ⟨(pgp_variantMatches_iff _ _ _).2 hsat, l₁, l₂, heq, fun u hu => ?_⟩
      cases hb : Pgp.variantMatches q.options sel u with
      | false => rfl
      | true => exact absurd ((pgp_variantMatches_iff _ _ _).1 hb) (hprev u hu)

/-- C3 witness: on a two-variant product with `Color` selected `White`,
both resolvers skip the non-matching first variant and return the
second, as the first-match characterization demands. -/
theorem C3_resolver_first_match_witness :
    Stl.resolveVariantFind
      ⟨["Color"], [⟨5, 100, some "Black", none, none, none⟩,
        ⟨6, 200, some "White", none, none, none⟩]⟩ [("Color", "White")]
      = some ⟨6, 200, some "White", none, none, none⟩ ∧
    Pgp.updateSelectedVariantFind
      ⟨[⟨"Color"⟩], [⟨5, 100, some "Black", none, none, none⟩,
        ⟨6, 200, some "White", none, none, none⟩]⟩ [("Color", "White")]
      = some ⟨6, 200, some "White", none, none, none⟩ :=
  ⟨(C3_resolver_first_match
      ⟨["Color"], [⟨5, 100, some "Black", none, none, none⟩,
        ⟨6, 200, some "White", none, none, none⟩]⟩
      ⟨[⟨"Color"⟩], [⟨5, 100, some "Black", none, none, none⟩,
        ⟨6, 200, some "White", none, none, none⟩]⟩ [("Color", "White")]
      ⟨6, 200, some "White", none, none, none⟩
      ⟨6, 200, some "White", none, none, none⟩).1.mpr
      ⟨[⟨5, 100, some "Black", none, none, none⟩], [], rfl, by decide, by decide⟩,
    (C3_resolver_first_match
      ⟨["Color"], [⟨5, 100, some "Black", none, none, none⟩,
        ⟨6, 200, some "White", none, none, none⟩]⟩
      ⟨[⟨"Color"⟩], [⟨5, 100, some "Black", none, none, none⟩,
        ⟨6, 200, some "White", none, none, none⟩]⟩ [("Color", "White")]
      ⟨6, 200, some "White", none, none, none⟩
      ⟨6, 200, some "White", none, none, none⟩).2.mpr
      ⟨[⟨5, 100, some "Black", none, none, none⟩], [], rfl, by decide, by decide⟩⟩

/-- C5 counterexample: on a template containing no placeholder token the
class money formatter does not return a result — its unguarded
`formatString.match(placeholderRegex)[1]` throws, modelled `none` — and
the module-closure formatter returns the template verbatim, so no
2-decimal amount appears in its output either. -/
theorem C5_counterexample :
    Pgp.formatMoney 100 "price" = none ∧ Stl.formatMoney 100 "price" = "price" :=
  ⟨rfl, rfl⟩

/-- C5 amended: for every amount, a template whose placeholder token
names an unrecognized mode falls back to 2 decimals and comma thousands
in both implementations; a template with no placeholder token at all
leaves the module-closure formatter returning the template unchanged
(without failing, and without inserting the amount), while the class
formatter fails. -/
theorem C5_default_mode (cents : Nat) (fmt : String) (pre post : List Char) (key : String) :
    (findPlaceholder fmt.data = some (pre, key, post) →
      key ≠ "amount" → key ≠ "amount_no_decimals" → key ≠ "amount_with_comma_separator" →
      key ≠ "amount_no_decimals_with_comma_separator" →
      key ≠ "amount_no_decimals_with_space_separator" →
      Stl.formatMoney cents fmt
          = String.mk pre ++ Stl.delimit cents 2 "," "." ++ String.mk post ∧
        Pgp.formatMoney cents fmt
          = some (String.mk pre ++ Pgp.formatWithDelimiters cents 2 "," "." ++ String.mk post)) ∧
    (findPlaceholder fmt.data = none →
      Stl.formatMoney cents fmt = fmt ∧ Pgp.formatMoney cents fmt = none) := by
  constructor
  · intro h h1 h2 h3 h4 h5
    unfold Stl.formatMoney Pgp.formatMoney
    simp only [h]
    unfold Stl.moneyValue Pgp.moneyValue
    rw [if_neg h1, if_neg h2, if_neg h3, if_neg h4, if_neg h5,
      if_neg h1, if_neg h2, if_neg h3, if_neg h4, if_neg h5]
    exact ⟨rfl, rfl⟩
  · intro h
    unfold Stl.formatMoney Pgp.formatMoney
    simp only [h]
    exact ⟨trivial, trivial⟩

/-- C5 witness: the amended statement evaluated at the unrecognized key
`price` and at a placeholder-free template. -/
theorem C5_default_mode_witness :
    (Stl.formatMoney 250 "\x7b\x7bprice\x7d\x7d"
        = String.mk [] ++ Stl.delimit 250 2 "," "." ++ String.mk [] ∧
      Pgp.formatMoney 250 "\x7b\x7bprice\x7d\x7d"
        = some (String.mk [] ++ Pgp.formatWithDelimiters 250 2 "," "." ++ String.mk [])) ∧
    (Stl.formatMoney 250 "price" = "price" ∧ Pgp.formatMoney 250 "price" = none) :=
  ⟨(C5_default_mode 250 "\x7b\x7bprice\x7d\x7d" [] [] "price").1 (by decide)
      (by decide) (by decide) (by decide) (by decide) (by decide),
    (C5_default_mode 250 "price" [] [] "price").2 (by decide)⟩

/-- C1 counterexample: the two implementations do not compute the same
results everywhere — on the `amount_no_decimals` money mode the IIFE
formatter returns `1` while the class formatter returns `1.00`, and for
an option named `Shoe Size` the IIFE renders buttons (equality test
against `size`) while the class renders a dropdown (substring test). -/
theorem C1_counterexample :
    Stl.formatMoney 100 "\x7b\x7bamount_no_decimals\x7d\x7d" = "1" ∧
    Pgp.formatMoney 100 "\x7b\x7bamount_no_decimals\x7d\x7d" = some "1.00" ∧
    (Stl.renderVariantSelectors
        ⟨["Shoe Size"], [⟨1, 100, some "38", none, none, none⟩]⟩).map (fun g => g.kind)
      = [WidgetKind.buttons] ∧
    (Pgp.renderVariants
        ⟨[⟨"Shoe Size"⟩], [⟨1, 100, some "38", none, none, none⟩]⟩).map (fun g => g.kind)
      = [WidgetKind.dropdown] := by
  refine ⟨rfl, rfl, ?_, ?_⟩ <;> decide

/-- C1 amended: the class and IIFE implementations compute the same
results for variant resolution, for option-picker labels, values, order
and skip conditions, and for cart-items construction; money formatting
agrees whenever the template's placeholder names a two-decimal or
unrecognized mode.  (They differ on the zero-decimal modes, on
placeholder-free templates, and on the dropdown-versus-buttons choice for
names containing but not equal to `size` — see the counterexample.) -/
theorem C1_equivalence (q : Pgp.Product) (sel : List (String × String)) (sv : Variant)
    (r : FetchResult (List Variant)) (cents : Nat) (fmt : String)
    (pre post : List Char) (key : String) :
    Pgp.updateSelectedVariantFind q sel = Stl.resolveVariantFind (stlOfPgp q) sel ∧
    Pgp.buildItems sv sel r = Stl.buildItems sv sel r ∧
    (Pgp.renderVariants q).map (fun g => (g.name, g.values))
      = (Stl.renderVariantSelectors (stlOfPgp q)).map (fun g => (g.name, g.values)) ∧
    (findPlaceholder fmt.data = some (pre, key, post) →
      key ≠ "amount_no_decimals" → key ≠ "amount_no_decimals_with_comma_separator" →
      key ≠ "amount_no_decimals_with_space_separator" →
      Pgp.formatMoney cents fmt = some (Stl.formatMoney cents fmt)) := by
  refine ⟨resolveFind_stlOfPgp q sel, rfl, render_proj_stlOfPgp q, ?_⟩
  intro h h1 h2 h3
  unfold Stl.formatMoney Pgp.formatMoney
  simp only [h]
  have hval : Pgp.moneyValue cents key = Stl.moneyValue cents key := by
    unfold Stl.moneyValue Pgp.moneyValue
    by_cases ha : key = "amount"
    · rw [if_pos ha, if_pos ha, formatWithDelimiters_two]
    · by_cases hc : key = "amount_with_comma_separator"
      · rw [if_neg ha, if_neg h1, if_pos hc, if_neg ha, if_neg h1, if_pos hc,
          formatWithDelimiters_two]
      · rw [if_neg ha, if_neg h1, if_neg hc, if_neg h2, if_neg h3,
          if_neg ha, if_neg h1, if_neg hc, if_neg h2, if_neg h3,
          formatWithDelimiters_two]
  rw [hval]

/-- C1 witness: the money-formatting agreement evaluated at the `amount`
mode. -/
theorem C1_equivalence_witness :
    Pgp.formatMoney 123456 "$\x7b\x7bamount\x7d\x7d"
      = some (Stl.formatMoney 123456 "$\x7b\x7bamount\x7d\x7d") :=
  (C1_equivalence ⟨[], []⟩ [] ⟨1, 1, none, none, none, none⟩ .httpError 123456
      "$\x7b\x7bamount\x7d\x7d" ['$'] [] "amount").2.2.2
    (by decide) (by decide) (by decide) (by decide)

/-- C4: the IIFE money formatter meets the claim's mode table — in
particular the three quoted examples and the two remaining zero-decimal
modes — while the class formatter renders the `amount_no_decimals` mode
with two decimals: its `precision = precision || 2` discards the `0`
passed by that very case (the mode's name and the sibling implementation
show 0 decimals are the intent). -/
theorem C4_mode_table_eval :
    Stl.formatMoney 123456 "$\x7b\x7bamount\x7d\x7d" = "$1,234.56" ∧
    Stl.formatMoney 100 "\x7b\x7bamount_no_decimals\x7d\x7d" = "1" ∧
    Stl.formatMoney 100050 "\x7b\x7bamount_with_comma_separator\x7d\x7d" = "1.000,50" ∧
    Stl.formatMoney 100050 "\x7b\x7bamount_no_decimals_with_comma_separator\x7d\x7d"
      = "1.001" ∧
    Stl.formatMoney 1234500 "\x7b\x7bamount_no_decimals_with_space_separator\x7d\x7d"
      = "12 345" ∧
    Pgp.formatMoney 123456 "$\x7b\x7bamount\x7d\x7d" = some "$1,234.56" ∧
    Pgp.formatMoney 100 "\x7b\x7bamount_no_decimals\x7d\x7d" = some "1.00" :=
  ⟨rfl, rfl, rfl, rfl, rfl, rfl, rfl⟩
